import Mathlib

/-!
Shallow embedding of `src/generate.py` (the toggle/characterization code
generator) and proofs about its behaviour.

Python dictionaries coming from the YAML loader are modelled as association
lists with Python-dict semantics (`dictGet` finds the first binding,
`dictSet` overwrites in place or appends, `dictUpdate` mirrors
`dict.update`).  Python `None` is `FieldVal.null`; YAML scalars are
`FieldVal.str`, YAML lists of scalars are `FieldVal.strList`.
`str.replace` is modelled by `pyReplace` (left-to-right, non-overlapping).
Fatal `assert`/`raise` paths are modelled with `Except String`.
-/

namespace Toggle

instance {ε α : Type} [DecidableEq ε] [DecidableEq α] : DecidableEq (Except ε α) :=
  fun x y =>
    match x, y with
    | Except.ok a, Except.ok b =>
      match decEq a b with
      | isTrue h => isTrue (by rw [h])
      | isFalse h => isFalse (fun hh => h (Except.ok.inj hh))
    | Except.error a, Except.error b =>
      match decEq a b with
      | isTrue h => isTrue (by rw [h])
      | isFalse h => isFalse (fun hh => h (Except.error.inj hh))
    | Except.ok _, Except.error _ => isFalse (fun hh => Except.noConfusion hh)
    | Except.error _, Except.ok _ => isFalse (fun hh => Except.noConfusion hh)

/-- A value stored in one of the YAML-derived dictionaries. -/
inductive FieldVal where
  | str (s : String)
  | null
  | strList (l : List String)
  deriving DecidableEq, Repr

/-- A Python dict from the YAML loader: ordered association list with
(unless stated otherwise) pairwise distinct keys. -/
abbrev Dict := List (String × FieldVal)

/-- Python `d[k]` / `d.get(k)`: value at the first binding of `k`. -/
def dictGet (d : Dict) (k : String) : Option FieldVal :=
  match d.find? (fun p => p.1 == k) with
  | some p => some p.2
  | none => none

/-- Python `k in d`. -/
def dictHas (d : Dict) (k : String) : Bool :=
  (dictGet d k).isSome

/-- Python `d[k] = v`: overwrite in place if the key exists, else append. -/
def dictSet (d : Dict) (k : String) (v : FieldVal) : Dict :=
  if dictHas d k then d.map (fun p => if p.1 == k then (k, v) else p)
  else d ++ [(k, v)]

/-- Python `d.update(e)`. -/
def dictUpdate (d e : Dict) : Dict :=
  e.foldl (fun acc p => dictSet acc p.1 p.2) d

/-- Lookup in an ordered map such as the resolved `char_ids` table. -/
def assocGet (l : List (String × Dict)) (k : String) : Option Dict :=
  match l.find? (fun p => p.1 == k) with
  | some p => some p.2
  | none => none

/-- `d[k]` when the value is known to be a YAML scalar (string). -/
def getStr (d : Dict) (k : String) : String :=
  match dictGet d k with
  | some (FieldVal.str s) => s
  | _ => ""

/-- `d[k]` as an optional string, `None` and missing mapped to `none`. -/
def getOptStr (d : Dict) (k : String) : Option String :=
  match dictGet d k with
  | some (FieldVal.str s) => some s
  | _ => none

/-- One row of `yaml/defaults.yaml` after `read_defaults` filled the
optional fields (`DESCRIPTION`, `H`, `C`, `TEST_ASSIGN`) with `None`. -/
structure OptionDef where
  NAME : String
  DEFAULT : String
  TYPE : String
  DECL : String
  BRIEF : String
  DESCRIPTION : Option String := none
  H : Option String := none
  C : Option String := none
  TEST_ASSIGN : Option String := none
  deriving DecidableEq, Repr

/-- The `decl_dict` table of `generate.py`. -/
def decl_dict : String → Option String
  | "BOOL" => some "bool @NAME@"
  | "CHAR" => some "char @NAME@"
  | "INT8" => some "int8_t @NAME@"
  | "INT16" => some "int16_t @NAME@"
  | "INT32" => some "int32_t @NAME@"
  | "INT64" => some "int64_t @NAME@"
  | "INTPTR" => some "intptr_t @NAME@"
  | "UINT8" => some "uint8_t @NAME@"
  | "UINT16" => some "uint16_t @NAME@"
  | "UINT32" => some "uint32_t @NAME@"
  | "UINT64" => some "uint64_t @NAME@"
  | "UINTPTR" => some "uintptr_t @NAME@"
  | "FLOAT" => some "float @NAME@"
  | "DOUBLE" => some "double @NAME@"
  | "CHAR_ARRAY" => some "char @NAME@[]"
  | _ => none

/-- The `test_assign_dict` table of `generate.py`. -/
def test_assign_dict : String → Option String
  | "CHAR_ARRAY" => some "\x7b /* TOP_C: #include <string.h> */\n    const char @NAME@_orig[] = @VALUE@;\n    strncpy(@NAME@, @NAME@_orig, sizeof(@NAME@));\n\x7d\n"
  | _ => none

/-- The `testing_reset_toggles_decl` constant of `generate.py`. -/
def testing_reset_toggles_decl : String :=
  "/** @brief Reset toggles to the initialization values.\n *\n * Call this function in the setup of a test suite to start every\n * test with consistent values.\n *\n * This function is available only when testing is enabled (when\n * `TESTING` is defined as 1).\n */\nvoid testing_reset_toggles(void);\n"

/-- Worker for `replaceL`, structurally recursive on a fuel bound (one
unit per character consumed at a scan position; the initial fuel
`s.length` is always sufficient, the `0, s => s` clause is unreachable). -/
def replaceLGo (pat rep : List Char) : Nat → List Char → List Char
  | _, [] => []
  | 0, s => s
  | Nat.succ n, c :: cs =>
    if pat ≠ [] ∧ pat <+: (c :: cs) then
      rep ++ replaceLGo pat rep n ((c :: cs).drop pat.length)
    else
      c :: replaceLGo pat rep n cs

/-- Python `str.replace` on character lists: scan left to right, replace
each non-overlapping occurrence of `pat` by `rep`. -/
def replaceL (pat rep s : List Char) : List Char :=
  replaceLGo pat rep s.length s

/-- Python `str.replace` on strings. -/
def pyReplace (s pat rep : String) : String :=
  String.mk (replaceL pat.data rep.data s.data)

/-- Python `s.startswith(pre)` (over the character list, so that proofs
can evaluate it). -/
def strStartsWith (s pre : String) : Bool := pre.data.isPrefixOf s.data

/-- Python `s.endswith(suf)`. -/
def strEndsWith (s suf : String) : Bool := suf.data.isSuffixOf s.data

/-- Python `s[n:]` for ASCII text. -/
def strDrop (s : String) (n : Nat) : String := String.mk (s.data.drop n)

/-- Python `s[:-n]` for ASCII text. -/
def strDropRight (s : String) (n : Nat) : String :=
  String.mk (s.data.take (s.data.length - n))

/-- Drop the longest run of trailing characters satisfying `p` (Python
`rstrip` with the matching character class). -/
def strDropRightWhile (s : String) (p : Char → Bool) : String :=
  String.mk ((s.data.reverse.dropWhile p).reverse)

/-- Python `s.strip()`. -/
def strTrim (s : String) : String :=
  String.mk (((s.data.dropWhile Char.isWhitespace).reverse.dropWhile Char.isWhitespace).reverse)

/-- Python `s.lower()` (ASCII). -/
def strToLower (s : String) : String := String.mk (s.data.map Char.toLower)

/-- Python `s.upper()` (ASCII). -/
def strToUpper (s : String) : String := String.mk (s.data.map Char.toUpper)

/-- Python `sep.join(l)`. -/
def strIntercalate (sep : String) (l : List String) : String :=
  String.mk (List.intercalate sep.data (l.map String.data))

/-- Worker for `strSplitOn`, fuel-structural (fuel `s.length` always
suffices; the `0` clause is unreachable); `acc` holds the current
segment reversed. -/
def splitOnGo (sep : List Char) : Nat → List Char → List Char → List (List Char)
  | _, acc, [] => [acc.reverse]
  | 0, acc, s => [acc.reverse ++ s]
  | Nat.succ n, acc, c :: cs =>
    if sep ≠ [] ∧ sep <+: (c :: cs) then
      acc.reverse :: splitOnGo sep n [] ((c :: cs).drop sep.length)
    else
      splitOnGo sep n (c :: acc) cs

/-- Python `s.split(sep)` for a non-empty separator. -/
def strSplitOn (s sep : String) : List String :=
  (splitOnGo sep.data s.data.length [] s.data).map String.mk

/-- The digit run of Python `int(...)`: all characters must be digits. -/
def strToNatAux (digits : List Char) : Option Nat :=
  if digits ≠ [] ∧ digits.all Char.isDigit then
    some (digits.foldl (fun a c => a * 10 + (c.toNat - 48)) 0)
  else none

/-- Python `int(s)` (whitespace-tolerant, optional sign); a non-numeric
string yields `none` where Python would raise `ValueError`. -/
def pyInt (s : String) : Option Int :=
  match (strTrim s).data with
  | '-' :: ds => (strToNatAux ds).map (fun n => -(n : Int))
  | '+' :: ds => (strToNatAux ds).map (fun n => (n : Int))
  | ds => (strToNatAux ds).map (fun n => (n : Int))

/-- `is_testing` of `generate.py`: `TESTING` missing, empty, or absent
profile means not testing; otherwise `bool(int(...))` (YAML scalars are
strings; a numeric string is converted; a non-string value, on which
Python would raise, is modelled as not testing). -/
def is_testing (char_id : Option Dict) : Bool :=
  match char_id with
  | none => false
  | some d =>
    match dictGet d "TESTING" with
    | some (FieldVal.str s) => if s = "" then false else ((pyInt s).getD 0) != 0
    | _ => false

/-- `get_value` of `generate.py`: profile override if present and
non-empty, else the option's declared default. -/
def get_value (name : String) (defaults : OptionDef) (char_id : Option Dict) : String :=
  match char_id with
  | none => defaults.DEFAULT
  | some d =>
    match dictGet d name with
    | some (FieldVal.str v) => if v = "" then defaults.DEFAULT else v
    | _ => defaults.DEFAULT

/-- Condition under which `error_if_value_option_is_set_on_characterization_file`
raises: a `VALUE`-typed option's name appears among the profile's fields. -/
def value_option_set_error (name : String) (defaults : OptionDef)
    (char_id : Option Dict) : Bool :=
  match char_id with
  | none => false
  | some d => strStartsWith defaults.TYPE "VALUE" && dictHas d name

/-- The `TYPE` / `DECL` part of `format_ch_def_decl` that decides whether
the option is testing-changeable (mutable in a testing profile): `VALUE`
never, `OPTION` yes, any other `TYPE` is a fatal error; a plain `MACRO` or
a `CUSTOM` decl is never testing-changeable. -/
def classify_testing_changes (typ decl : String) : Except String Bool := do
  let testing_changes ←
    if typ = "VALUE" then pure false
    else if typ = "OPTION" then pure true
    else throw ("TYPE = \"" ++ typ ++ "\" is not implemented. Valid: [\"VALUE\", \"OPTION\"].")
  if decl = "MACRO" then pure false
  else if decl = "CUSTOM" then pure false
  else pure testing_changes

/-- The "Changes when testing" emission matrix of `format_ch_def_decl`:
given the storage base, the C declarator text and the test-assign template,
produce the raw (pre-substitution) text for the requested render mode. -/
def render_base (base decl_str test_assign : String)
    (testing testing_changes : Bool) (format : String) : String :=
  if base = "MACRO" then
    if testing && testing_changes then
      if format = "decl" then "extern " ++ decl_str ++ ";"
      else if format = "def" then decl_str ++ " = @VALUE@;"
      else if format = "assign" then test_assign
      else ""
    else
      if format = "decl" then "#define @NAME@ @VALUE@"
      else if format = "def" then ""
      else if format = "assign" then ""
      else ""
  else if base = "CONST" then
    if format = "decl" then "extern @CONST@ " ++ decl_str ++ ";"
    else if format = "def" then "@CONST@ " ++ decl_str ++ " = @VALUE@;"
    else if testing && testing_changes then
      if format = "assign" then test_assign else ""
    else ""
  else if base = "VAR" then
    if format = "decl" then "extern " ++ decl_str ++ ";"
    else if format = "def" then decl_str ++ " = @VALUE@;"
    else if format = "assign" then test_assign
    else ""
  else ""

/-- The token-substitution tail of `format_ch_def_decl`: `@NAME@`,
`@VALUE@` and `@CONST@` (the latter with surrounding-space removal when
constness is dropped). -/
def apply_subst (code name value : String) (testing testing_changes : Bool) : String :=
  let code := pyReplace code "@NAME@" name
  let code := pyReplace code "@VALUE@" value
  let const := if testing && testing_changes then "" else "const"
  if const = "" then
    pyReplace (pyReplace code "@CONST@ " const) " @CONST@" const
  else
    pyReplace code "@CONST@" const

/-- `format_ch_def_decl` of `generate.py`.  `code0` is the option's custom
template for this mode (`None` when absent). -/
def format_ch_def_decl (code0 : Option String) (defaults : OptionDef)
    (char_id : Option Dict) (format : String) : Except String String := do
  let typ := defaults.TYPE
  let decl := defaults.DECL
  let name := defaults.NAME
  let value := get_value name defaults char_id
  let testing := is_testing char_id
  if value_option_set_error name defaults char_id then
    throw (name ++ " is declared with TYPE = VALUE and cannot be redefined in the characterization. Remove " ++ name ++ " from the file yaml/char_ids.yaml.")
  let testing_changes ← classify_testing_changes typ decl
  match code0 with
  | some code => pure (apply_subst code name value testing testing_changes)
  | none =>
    if decl = "MACRO" then
      -- test_assign is never consulted here: a plain MACRO is never
      -- testing-changeable
      pure (apply_subst (render_base "MACRO" "MACRO" "@NAME@ = @VALUE@;" testing testing_changes format) name value testing testing_changes)
    else if decl = "CUSTOM" then
      -- "Nothing to do for custom": early return before substitution
      pure ""
    else if strStartsWith decl "MACRO_" || strStartsWith decl "CONST_"
        || strStartsWith decl "VAR_" then
      -- base, orig_decl = decl.split("_", 1); the bases contain no "_",
      -- so the split point is the prefix length
      let base := if strStartsWith decl "MACRO_" then "MACRO"
        else if strStartsWith decl "CONST_" then "CONST" else "VAR"
      let orig_decl := if strStartsWith decl "MACRO_" || strStartsWith decl "CONST_"
        then strDrop decl 6 else strDrop decl 4
      match decl_dict orig_decl with
      | none =>
        throw ("DECL = \"" ++ decl ++ "\" is not implemented. Valid: [\"*_UINT8\", etc].")
      | some decl_str =>
        let test_assign := (test_assign_dict orig_decl).getD "@NAME@ = @VALUE@;"
        pure (apply_subst (render_base base decl_str test_assign testing testing_changes format) name value testing testing_changes)
    else
      throw ("DECL = \"" ++ decl ++ "\" is not implemented. Valid: [\"MACRO_*\", \"CONST_*\", \"VAR_*\"].")

/-- `format_h_declaration` of `generate.py`. -/
def format_h_declaration (defaults : OptionDef) (char_id : Option Dict := none) :
    Except String String :=
  format_ch_def_decl defaults.H defaults char_id "decl"

/-- `format_c_definition` of `generate.py`. -/
def format_c_definition (defaults : OptionDef) (char_id : Option Dict := none) :
    Except String String :=
  format_ch_def_decl defaults.C defaults char_id "def"

/-- `format_c_assignment` of `generate.py`. -/
def format_c_assignment (defaults : OptionDef) (char_id : Option Dict := none) :
    Except String String :=
  format_ch_def_decl defaults.TEST_ASSIGN defaults char_id "assign"

/-- `apply_indent` of `generate.py`. -/
def apply_indent (code : String) (indent : Nat) : String :=
  let ind := String.mk (List.replicate indent ' ')
  ind ++ strIntercalate ("\n" ++ ind) (strSplitOn code "\n")

/-- `format_comment` of `generate.py` (`rstrip`, then prefix every line
with ` * ` at the given indent). -/
def format_comment (comment : String) (indent : Nat := 0) : String :=
  let comment := strDropRightWhile comment Char.isWhitespace
  let lines := "" :: strSplitOn comment "\n"
  strIntercalate ("\n" ++ String.mk (List.replicate indent ' ') ++ " * ") lines

/-- `format_brief_descr_comment` of `generate.py`. -/
def format_brief_descr_comment (brief : String) (descr : Option String)
    (mid_comment : Bool := false) : String :=
  let comment := if mid_comment then "" else "/** "
  match descr with
  | none => comment ++ "@brief " ++ brief ++ (if mid_comment then "" else " */")
  | some d =>
      comment ++ "@brief " ++ brief ++ format_comment ("\n" ++ d)
        ++ (if mid_comment then "" else "\n */")

/-- Dropping a prefix cannot lengthen a list (termination helper). -/
theorem length_dropWhile_le (p : Char → Bool) (l : List Char) :
    (l.dropWhile p).length ≤ l.length := by
  induction l with
  | nil => simp [List.dropWhile]
  | cons c cs ih =>
    by_cases h : p c
    · simp only [List.dropWhile, h]
      exact Nat.le_succ_of_le ih
    · simp [List.dropWhile, h]

/-- One line's worth of the `[ \t]+$` (MULTILINE) substitution of
`clean_code`. -/
def rstripLine (line : String) : String :=
  strDropRightWhile line (fun c => c = ' ' || c = '\t')

/-- Worker for `squashBeforeCloseBrace`, fuel-structural (fuel
`s.length` is always sufficient; the `0, s => s` clause is unreachable). -/
def squashBeforeCloseBraceGo : Nat → List Char → List Char
  | _, [] => []
  | 0, s => s
  | Nat.succ n, '\n' :: rest =>
    let run := rest.takeWhile (fun c => c = '\n')
    let rest' := rest.dropWhile (fun c => c = '\n')
    if run.length ≥ 1 && rest'.head? = some '\x7d' then
      '\n' :: squashBeforeCloseBraceGo n rest'
    else
      ('\n' :: run) ++ squashBeforeCloseBraceGo n rest'
  | Nat.succ n, c :: rest => c :: squashBeforeCloseBraceGo n rest

/-- The `\n\n+\x7d → \n\x7d` substitution of `clean_code`: collapse the
newline run before a closing brace. -/
def squashBeforeCloseBrace (s : List Char) : List Char :=
  squashBeforeCloseBraceGo s.length s

/-- Worker for `squashAfterOpenBrace`, fuel-structural. -/
def squashAfterOpenBraceGo : Nat → List Char → List Char
  | _, [] => []
  | 0, s => s
  | Nat.succ n, '\x7b' :: '\n' :: rest =>
    '\x7b' :: '\n' :: squashAfterOpenBraceGo n (rest.dropWhile (fun c => c = '\n'))
  | Nat.succ n, c :: rest => c :: squashAfterOpenBraceGo n rest

/-- The `\x7b\n\n+ → \x7b\n` substitution of `clean_code`: collapse the
newline run after an opening brace. -/
def squashAfterOpenBrace (s : List Char) : List Char :=
  squashAfterOpenBraceGo s.length s

/-- Worker for `squashBlankLines`, fuel-structural. -/
def squashBlankLinesGo : Nat → List Char → List Char
  | _, [] => []
  | 0, s => s
  | Nat.succ n, '\n' :: rest =>
    let run := rest.takeWhile (fun c => c = '\n')
    let rest' := rest.dropWhile (fun c => c = '\n')
    (if run.length ≥ 2 then ['\n', '\n'] else '\n' :: run)
      ++ squashBlankLinesGo n rest'
  | Nat.succ n, c :: rest => c :: squashBlankLinesGo n rest

/-- The `\n\n\n+ → \n\n` substitution of `clean_code`: a run of three or
more newlines becomes exactly two. -/
def squashBlankLines (s : List Char) : List Char :=
  squashBlankLinesGo s.length s

/-- `clean_code` of `generate.py`. -/
def clean_code (code : String) : String :=
  let code := strTrim code ++ "\n"
  let code := strIntercalate "\n" ((strSplitOn code "\n").map rstripLine)
  let code := String.mk (squashBeforeCloseBrace code.data)
  let code := String.mk (squashAfterOpenBrace code.data)
  String.mk (squashBlankLines code.data)

/-- The payload of one `TOP_C:` match: the regex
`TOP_C: (.*?)(?:\s*\*\/)?$` strips an optional trailing `*/` together with
the whitespace run in front of it. -/
def top_c_payload (s : String) : String :=
  if strEndsWith s "*/" then strDropRightWhile (strDropRight s 2) Char.isWhitespace else s

/-- The `TOP_C:` extraction of `write_char_id_source` applied to one line
(`re.MULTILINE` makes the regex work per line): the text after the first
`TOP_C: ` marker, with the optional comment-closer stripped. -/
def top_c_of_line (line : String) : Option String :=
  match strSplitOn line "TOP_C: " with
  | [] => none
  | [_] => none
  | _ :: rest => some (top_c_payload (strIntercalate "TOP_C: " rest))

/-- `re.findall(r"TOP_C: (.*?)(?:\s*\*\/)?$", code, re.MULTILINE)`. -/
def find_top_c (code : String) : List String :=
  (strSplitOn code "\n").filterMap top_c_of_line

/-- One realizable behaviour of Python's `list(set(...))` in
`write_char_id_source`: deduplicate keeping first occurrences.  The actual
iteration order of a Python `set` of strings depends on the interpreter's
string-hash seed, so `write_char_id_source_code` is parameterized by the
order-producing function and this is just one admissible instance. -/
def dedupFirstGo (seen : List String) : List String → List String
  | [] => []
  | x :: xs =>
    if seen.contains x then dedupFirstGo seen xs
    else x :: dedupFirstGo (x :: seen) xs

/-- One realizable `list(set(...))` order: first occurrences, in order. -/
def list_set_default (l : List String) : List String := dedupFirstGo [] l

/-- Another admissible `list(set(...))` order: same elements, reversed. -/
def list_set_rev (l : List String) : List String := (dedupFirstGo [] l).reverse

/-- `write_char_id_source` of `generate.py` (the file content it writes).
`setOrder` stands for the iteration order of `list(set(found_headers))`. -/
def write_char_id_source_code (defaults : List OptionDef) (char_id : Dict)
    (setOrder : List String → List String) : Except String String := do
  let code_begin := ""
  let code_end := ""
  let code_option ← defaults.foldlM (fun acc d => do
      let s ← format_c_definition d (some char_id)
      pure (acc ++ s ++ "\n")) ""
  let code_option ←
    if is_testing (some char_id) then do
      let head := code_option ++ "\nvoid testing_reset_toggles(void)\n\x7b\n"
      let body ← defaults.foldlM (fun acc d => do
          let s ← format_c_assignment d (some char_id)
          pure (acc ++ apply_indent s 4 ++ "\n")) head
      pure (body ++ "\x7d\n")
    else pure code_option
  let found_headers := setOrder (find_top_c code_option)
  let necessary_headers := strIntercalate "\n" found_headers ++ "\n"
  pure (clean_code (code_begin ++ necessary_headers ++ code_option ++ code_end))

/-- `write_char_id_header` of `generate.py` (the file content it writes). -/
def write_char_id_header_code (defaults : List OptionDef) (char_id : Dict) :
    Except String String := do
  let file_name := strToLower (getStr char_id "CHAR_ID") ++ ".h"
  let header_guard := "CHARACTERIZATIONS_" ++ strToUpper (getStr char_id "CHAR_ID") ++ "_H"
  let code_begin :=
    "#ifndef " ++ header_guard ++ "\n#define " ++ header_guard ++ "\n\n/** @file "
      ++ file_name ++ "\n * "
      ++ format_brief_descr_comment (getStr char_id "BRIEF") (getOptStr char_id "DESCRIPTION") true
      ++ "\n */\n\n"
  let code_end := "\n#endif /* " ++ header_guard ++ " */\n"
  let code_option ← defaults.foldlM (fun acc d => do
      let h ← format_h_declaration d (some char_id)
      pure (acc ++ format_brief_descr_comment d.BRIEF d.DESCRIPTION ++ "\n" ++ h ++ "\n\n")) ""
  let code_option :=
    if is_testing (some char_id) then code_option ++ apply_indent testing_reset_toggles_decl 0
    else code_option
  pure (clean_code (code_begin ++ code_option ++ code_end))

/-- The fixed opening text of the master toggle header
(`write_characterization_header`'s `code_begin`). -/
def master_header_begin : String :=
  "#ifndef TOGGLE_H\n#define TOGGLE_H\n\n#ifdef __cplusplus\nextern \"C\"\n\x7b\n#endif\n\n/** @file toggle.h\n * @brief Toggle definitions.\n *\n * This file validates the macro CHAR_ID and includes the corresponding\n * Toggle header.\n *\n * In the list of CHAR_IDS, always add to the end of the list and\n * increment NUM_CHAR_IDS.\n *\n * Numbering starts with 1 because the compiler would treat an undefined\n * CHAR_ID as 0.\n */\n\n#include <stdbool.h>\n#include <stdint.h>\n\n#ifdef DOXYGEN\n    /** @brief Characterization ID (int).\n     *\n     * Define the device characterization: the options and features enabled.\n     *\n     * The characterization ID should be defined when calling CMake (ex:\n     * `cmake -D CHAR_ID=...`) or when calling the compiler (ex:\n     * `gcc -D CHAR_ID=...`).\n     */\n    #define CHAR_ID CHAR_ID_TEST\n#endif\n\n#ifndef CHAR_ID\n    #define CHAR_ID CHAR_ID_TEST\n    #warning \"CHAR_ID is not defined. Using default.\"\n#endif\n\n"

/-- The `#define <CHAR_ID> <num+1>` lines of the master header, in
declaration order; `j` is the 0-based position already consumed
(`enumerate`'s counter). -/
def char_id_define_lines (j : Nat) : List (String × Dict) → String
  | [] => ""
  | (cid, d) :: rest =>
    "#define " ++ cid ++ " " ++ toString (j + 1) ++ " /**< @brief "
      ++ getStr d "BRIEF" ++ " */\n" ++ char_id_define_lines (j + 1) rest

/-- The `code_char_ids` block of `write_characterization_header`: the
CHAR_ID list, the NUM_CHAR_IDS count (the loop's final `num+1`, which is
the table length; `num` starts at `-1`) and the range check. -/
def code_char_ids_block (char_ids : List (String × Dict)) : String :=
  "/* List of CHAR_IDs. */\n" ++ char_id_define_lines 0 char_ids
    ++ "\n#define NUM_CHAR_IDS " ++ toString char_ids.length
    ++ " /**< @brief Number of char IDs. */\n\n/* Validate CHAR_ID range. */\n#if (CHAR_ID < 1 || CHAR_ID > NUM_CHAR_IDS)\n    #error \"Macro CHAR_ID is not in the valid range.\"\n#endif\n\n"

/-- The conditional per-profile `#include` block of the master header or
master source; `ext` is `".h"` or `".c"`. -/
def code_char_includes (char_ids : List (String × Dict)) (ext : String) : String :=
  "#ifdef DOXYGEN\n    /* Nothing to include for Doxygen. */\n"
    ++ String.join (char_ids.map (fun p =>
        "#elif (CHAR_ID == " ++ p.1 ++ ")\n    #include \"characterizations/"
          ++ strToLower p.1 ++ ext ++ "\"\n"))
    ++ "#endif\n"

/-- `write_characterization_header` of `generate.py` (the `toggle.h`
content it writes). -/
def write_characterization_header_code (defaults : List OptionDef)
    (char_ids : List (String × Dict)) : Except String String := do
  let code_end := "#ifdef __cplusplus\n\x7d\n#endif\n\n#endif /* TOGGLE_H */\n"
  let code_option_doc ← defaults.foldlM (fun acc d => do
      let h ← format_h_declaration d none
      pure (acc ++ apply_indent (format_brief_descr_comment d.BRIEF d.DESCRIPTION) 4
        ++ "\n" ++ apply_indent h 4 ++ "\n\n"))
    "/* Options documentation. */\n\n#ifdef DOXYGEN\n\n"
  let code_option_doc := code_option_doc ++ apply_indent testing_reset_toggles_decl 4
    ++ "\n#endif /* DOXYGEN */\n\n"
  let code_char_includes_h := "/* Include the characterization. */\n" ++ code_char_includes char_ids ".h" ++ "\n"
  pure (clean_code (master_header_begin ++ code_option_doc
    ++ code_char_ids_block char_ids ++ code_char_includes_h ++ code_end))

/-- `write_characterization_source` of `generate.py` (the `toggle.c`
content it writes); it never fails. -/
def write_characterization_source_code (char_ids : List (String × Dict)) : String :=
  clean_code ("#include \"toggle.h\"\n\n" ++ code_char_includes char_ids ".c")

/-- The start of `read_char_ids`'s per-profile processing: insert the
missing optional fields (`DESCRIPTION`, `BASED_ON`) as `None` — this runs
before the `BASED_ON` merge, so these fields always belong to the child. -/
def normalize_profile (x : Dict) : Dict :=
  let x := if dictHas x "DESCRIPTION" then x else dictSet x "DESCRIPTION" FieldVal.null
  if dictHas x "BASED_ON" then x else dictSet x "BASED_ON" FieldVal.null

/-- The `for base in based_on` loop of `read_char_ids`: fold the
already-resolved parents over `xx` with `dict.update`; an unknown parent
id is fatal. -/
def merge_bases (char_ids : List (String × Dict)) : List String → Dict →
    Except String Dict
  | [], xx => pure xx
  | b :: rest, xx =>
    match assocGet char_ids b with
    | none => throw ("Char ID '" ++ b ++ "' is not defined.")
    | some base => merge_bases char_ids rest (dictUpdate xx base)

/-- The `BASED_ON` dispatch of `read_char_ids`: `None` keeps the raw
profile, a string is treated as a one-element list, a list is merged in
order, anything else is fatal; the profile's own fields are applied last. -/
def resolve_based_on (char_ids : List (String × Dict)) (x : Dict) :
    Except String Dict :=
  match dictGet x "BASED_ON" with
  | some FieldVal.null => pure x
  | some (FieldVal.str b) => do
    let xx ← merge_bases char_ids [b] []
    pure (dictUpdate xx x)
  | some (FieldVal.strList bs) => do
    let xx ← merge_bases char_ids bs []
    pure (dictUpdate xx x)
  | _ => throw "BASED_ON must be a string or list of strings"

/-- The main loop of `read_char_ids` over the raw profile records, in
declaration order, accumulating the resolved ordered table.  The error
messages are abbreviated relative to the Python assert texts (which also
interpolate the offending record); no property stated here depends on
the message wording. -/
def read_char_ids_loop : List Dict → List (String × Dict) →
    Except String (List (String × Dict))
  | [], acc => pure acc
  | x :: rest, acc => do
    if !dictHas x "CHAR_ID" then
      throw "Field 'CHAR_ID' is missing"
    if !dictHas x "BRIEF" then
      throw "Field 'BRIEF' is missing"
    let x := normalize_profile x
    let name := getStr x "CHAR_ID"
    if acc.any (fun p => p.1 == name) then
      throw ("Char ID '" ++ name ++ "' is duplicated")
    let xx ← resolve_based_on acc x
    read_char_ids_loop rest (acc ++ [(name, xx)])

/-- `read_char_ids` of `generate.py` (the YAML reading itself is external
I/O; the records arrive as ordered dicts). -/
def read_char_ids (data : List Dict) : Except String (List (String × Dict)) :=
  read_char_ids_loop data []

/-- The outcome of a run of `main`: the files written so far (in writing
order) and the fatal error, if one aborted the run. -/
structure RunOut where
  files : List (String × String)
  err : Option String
  deriving Repr

/-- The per-profile loop of `main`: write each profile's header then
source; the first exception aborts, leaving the files already written. -/
def run_profiles (setOrder : List String → List String)
    (defaults : List OptionDef) :
    List (String × Dict) → List (String × String) → RunOut
  | [], files => ⟨files, none⟩
  | (_, cid) :: rest, files =>
    match write_char_id_header_code defaults cid with
    | Except.error e => ⟨files, some e⟩
    | Except.ok h =>
      let files := files ++ [("include/characterizations/" ++ strToLower (getStr cid "CHAR_ID") ++ ".h", h)]
      match write_char_id_source_code defaults cid setOrder with
      | Except.error e => ⟨files, some e⟩
      | Except.ok c =>
        run_profiles setOrder defaults rest
          (files ++ [("src/characterizations/" ++ strToLower (getStr cid "CHAR_ID") ++ ".c", c)])

/-- `main` of `generate.py`: resolve the profiles, write the master
header and master source, then each profile's header and source in
declaration order; a fatal error stops the run but the files already
written remain. -/
def run_main (setOrder : List String → List String)
    (defaults : List OptionDef) (raw_char_ids : List Dict) : RunOut :=
  match read_char_ids raw_char_ids with
  | Except.error e => ⟨[], some e⟩
  | Except.ok char_ids =>
    match write_characterization_header_code defaults char_ids with
    | Except.error e => ⟨[], some e⟩
    | Except.ok master_h =>
      let files := [("include/toggle.h", master_h),
        ("src/toggle.c", write_characterization_source_code char_ids)]
      run_profiles setOrder defaults char_ids files

/-- Field lookup in the result of `read_char_ids`: profile `cid`'s field
`k`, if the run succeeded and the profile exists. -/
def resolved_field (res : Except String (List (String × Dict))) (cid k : String) :
    Option FieldVal :=
  match res with
  | Except.error _ => none
  | Except.ok l =>
    match assocGet l cid with
    | none => none
    | some d => dictGet d k

/-- The lookup semantics the spec gives for profile inheritance: the
child's own field wins; otherwise the last parent (in `BASED_ON` order)
that carries the field. -/
def spec_merge_lookup (parents : List Dict) (x : Dict) (k : String) :
    Option FieldVal :=
  dictGet x k <|> parents.reverse.findSome? (fun p => dictGet p k)

section DictLemmas

theorem dictGet_nil (k : String) : dictGet [] k = none := rfl

theorem dictGet_cons (k₀ : String) (v₀ : FieldVal) (d : Dict) (k : String) :
    dictGet ((k₀, v₀) :: d) k = if k₀ = k then some v₀ else dictGet d k := by
  by_cases h : k₀ = k
  · simp [dictGet, List.find?, h]
  · simp only [dictGet, List.find?]
    have : ((k₀, v₀).1 == k) = false := by simpa using h
    simp [this, h]

theorem dictGet_eq_none_of_not_mem_keys (d : Dict) (k : String)
    (h : k ∉ d.map Prod.fst) : dictGet d k = none := by
  induction d with
  | nil => rfl
  | cons p d ih =>
    obtain ⟨k₀, v₀⟩ := p
    simp only [List.map_cons, List.mem_cons, not_or] at h
    rw [dictGet_cons, if_neg (fun hk => h.1 hk.symm)]
    exact ih h.2

theorem dictGet_append (d e : Dict) (k : String) :
    dictGet (d ++ e) k = (dictGet d k <|> dictGet e k) := by
  induction d with
  | nil => simp [dictGet_nil]
  | cons p d ih =>
    obtain ⟨k₀, v₀⟩ := p
    rw [List.cons_append, dictGet_cons, dictGet_cons]
    by_cases h : k₀ = k
    · simp [h]
    · simp [h, ih]

theorem dictGet_map_set_ne (d : Dict) (k : String) (v : FieldVal) (k' : String)
    (h : k ≠ k') :
    dictGet (d.map (fun p => if p.1 == k then (k, v) else p)) k' = dictGet d k' := by
  induction d with
  | nil => rfl
  | cons p d ih =>
    obtain ⟨k₀, v₀⟩ := p
    by_cases hk : k₀ = k
    · subst hk
      simp only [List.map_cons, beq_self_eq_true, if_pos]
      rw [dictGet_cons, dictGet_cons, if_neg h, if_neg h]
      exact ih
    · have : ((k₀, v₀).1 == k) = false := by simpa using hk
      simp only [List.map_cons, this, Bool.false_eq_true, if_false]
      rw [dictGet_cons, dictGet_cons]
      by_cases h' : k₀ = k'
      · simp [h']
      · rw [if_neg h', if_neg h']
        exact ih

theorem dictGet_map_set_self (d : Dict) (k : String) (v : FieldVal)
    (h : dictHas d k = true) :
    dictGet (d.map (fun p => if p.1 == k then (k, v) else p)) k = some v := by
  induction d with
  | nil => simp [dictHas, dictGet_nil] at h
  | cons p d ih =>
    obtain ⟨k₀, v₀⟩ := p
    by_cases hk : k₀ = k
    · subst hk
      simp only [List.map_cons, beq_self_eq_true, if_pos]
      rw [dictGet_cons, if_pos rfl]
    · have hb : ((k₀, v₀).1 == k) = false := by simpa using hk
      simp only [List.map_cons, hb, Bool.false_eq_true, if_false]
      rw [dictGet_cons, if_neg hk]
      apply ih
      simp only [dictHas, dictGet_cons, if_neg hk] at h
      exact h

theorem dictGet_dictSet (d : Dict) (k : String) (v : FieldVal) (k' : String) :
    dictGet (dictSet d k v) k' = if k = k' then some v else dictGet d k' := by
  unfold dictSet
  by_cases h : dictHas d k = true
  · rw [if_pos h]
    by_cases h' : k = k'
    · subst h'
      rw [if_pos rfl, dictGet_map_set_self d k v h]
    · rw [if_neg h', dictGet_map_set_ne d k v k' h']
  · rw [if_neg h, dictGet_append]
    have hd : dictGet d k = none := by
      simp only [dictHas] at h
      exact Option.not_isSome_iff_eq_none.mp (by simpa using h)
    by_cases h' : k = k'
    · subst h'
      simp [hd, dictGet_cons]
    · rw [dictGet_cons, if_neg h', dictGet_nil, if_neg h']
      cases hx : dictGet d k' <;> simp

theorem dictGet_dictUpdate (d e : Dict) (k : String)
    (he : (e.map Prod.fst).Nodup) :
    dictGet (dictUpdate d e) k = (dictGet e k <|> dictGet d k) := by
  induction e generalizing d with
  | nil => simp [dictUpdate, dictGet_nil]
  | cons p e ih =>
    obtain ⟨k₀, v₀⟩ := p
    simp only [List.map_cons, List.nodup_cons] at he
    have step : dictUpdate d ((k₀, v₀) :: e) = dictUpdate (dictSet d k₀ v₀) e := rfl
    rw [step, ih _ he.2, dictGet_cons, dictGet_dictSet]
    by_cases h : k₀ = k
    · subst h
      have : dictGet e k₀ = none :=
        dictGet_eq_none_of_not_mem_keys e k₀ he.1
      simp [this]
    · simp [h]

theorem findSome?_append {α β : Type} (f : α → Option β) (l₁ l₂ : List α) :
    (l₁ ++ l₂).findSome? f = (l₁.findSome? f <|> l₂.findSome? f) := by
  induction l₁ with
  | nil => simp
  | cons a l ih =>
    rw [List.cons_append, List.findSome?_cons, List.findSome?_cons]
    cases f a <;> simp [ih]

theorem dictGet_update_chain (parents : List Dict) (d : Dict) (k : String)
    (hp : ∀ p ∈ parents, (p.map Prod.fst).Nodup) :
    dictGet (parents.foldl dictUpdate d) k
      = (parents.reverse.findSome? (fun p => dictGet p k) <|> dictGet d k) := by
  induction parents generalizing d with
  | nil => simp
  | cons p ps ih =>
    have hps : ∀ q ∈ ps, (q.map Prod.fst).Nodup := fun q hq => hp q (List.mem_cons_of_mem _ hq)
    rw [List.foldl_cons, ih (dictUpdate d p) hps, List.reverse_cons,
      findSome?_append, dictGet_dictUpdate d p k (hp p (List.mem_cons_self p ps))]
    rw [List.findSome?_cons]
    cases hpk : dictGet p k <;> cases hfs : ps.reverse.findSome? (fun q => dictGet q k) <;>
      simp [List.findSome?_nil]

end DictLemmas

section ReplaceLemmas

/-- A string free of the `@` marker: token substitution cannot touch it. -/
def atFree (s : String) : Prop := ∀ c ∈ s.data, c ≠ '@'

instance (s : String) : Decidable (atFree s) := by
  unfold atFree; infer_instance

theorem replaceLGo_nil (pat rep : List Char) (n : Nat) :
    replaceLGo pat rep n [] = [] := by
  cases n <;> rfl

/-- The worker ignores the fuel as long as it bounds the list length. -/
theorem replaceLGo_fuel (pat rep : List Char) :
    ∀ n m (s : List Char), s.length ≤ n → s.length ≤ m →
      replaceLGo pat rep n s = replaceLGo pat rep m s := by
  intro n
  induction n with
  | zero =>
    intro m s h1 _
    have : s = [] := List.length_eq_zero.mp (Nat.le_zero.mp h1)
    subst this
    simp [replaceLGo_nil]
  | succ n ih =>
    intro m s h1 h2
    cases s with
    | nil => simp [replaceLGo_nil]
    | cons c cs =>
      cases m with
      | zero => simp at h2
      | succ m =>
        show replaceLGo pat rep (n + 1) (c :: cs) = replaceLGo pat rep (m + 1) (c :: cs)
        rw [replaceLGo, replaceLGo]
        simp only [List.length_cons] at h1 h2
        by_cases h : pat ≠ [] ∧ pat <+: (c :: cs)
        · rw [if_pos h, if_pos h]
          congr 1
          have hp := List.length_pos.mpr h.1
          apply ih
          · simp only [List.length_drop, List.length_cons]; omega
          · simp only [List.length_drop, List.length_cons]; omega
        · rw [if_neg h, if_neg h]
          congr 1
          apply ih <;> omega

theorem replaceL_nil (pat rep : List Char) : replaceL pat rep [] = [] := rfl

/-- The one-step unfolding of `replaceL`. -/
theorem replaceL_cons_eq (pat rep : List Char) (c : Char) (cs : List Char) :
    replaceL pat rep (c :: cs)
      = if pat ≠ [] ∧ pat <+: (c :: cs)
        then rep ++ replaceL pat rep ((c :: cs).drop pat.length)
        else c :: replaceL pat rep cs := by
  show replaceLGo pat rep (cs.length + 1) (c :: cs) = _
  rw [replaceLGo]
  by_cases h : pat ≠ [] ∧ pat <+: (c :: cs)
  · rw [if_pos h, if_pos h]
    congr 1
    apply replaceLGo_fuel
    · have hp := List.length_pos.mpr h.1
      simp only [List.length_drop, List.length_cons]
      omega
    · exact Nat.le_refl _
  · rw [if_neg h, if_neg h]
    rfl

/-- If no suffix of `s` begins with `pat`, substitution is the identity. -/
theorem replaceL_eq_self (pat rep s : List Char)
    (h : ∀ t ∈ s.tails, ¬ pat <+: t) : replaceL pat rep s = s := by
  induction s with
  | nil => exact replaceL_nil pat rep
  | cons c cs ih =>
    rw [replaceL_cons_eq]
    have hc : ¬ (pat ≠ [] ∧ pat <+: (c :: cs)) := by
      intro hx
      exact h (c :: cs) (by simp [List.tails_cons]) hx.2
    rw [if_neg hc]
    congr 1
    exact ih (fun t ht => h t (by simp [List.tails_cons, ht]))

/-- If the pattern starts with `@` and `s` is `@`-free, substitution is
the identity. -/
theorem replaceL_eq_self_of_atFree (pat rep s : List Char)
    (hp : pat.head? = some '@') (hs : ∀ c ∈ s, c ≠ '@') :
    replaceL pat rep s = s := by
  induction s with
  | nil => exact replaceL_nil pat rep
  | cons c cs ih =>
    rw [replaceL_cons_eq]
    have hc : ¬ (pat ≠ [] ∧ pat <+: (c :: cs)) := by
      rintro ⟨hne, hpre⟩
      obtain ⟨p, ps, rfl⟩ := List.exists_cons_of_ne_nil hne
      simp only [List.head?_cons, Option.some.injEq] at hp
      obtain ⟨t, ht⟩ := hpre
      have : p = c := by
        have := congrArg (·.head?) ht
        simpa using this
      exact hs c (by simp) (by rw [← this, hp])
    rw [if_neg hc]
    congr 1
    exact ih (fun c' hc' => hs c' (by simp [hc']))

/-- Substituting a pattern that starts with `@` in `a ++ pat ++ b` where
`a` is `@`-free: `a` is kept, the boundary occurrence is replaced, and
substitution continues in `b`. -/
theorem replaceL_append (pat rep a b : List Char)
    (hp : pat.head? = some '@') (ha : ∀ c ∈ a, c ≠ '@') :
    replaceL pat rep (a ++ pat ++ b) = a ++ rep ++ replaceL pat rep b := by
  induction a with
  | nil =>
    have hne : pat ≠ [] := by
      intro h; rw [h] at hp; simp at hp
    obtain ⟨p, ps, rfl⟩ := List.exists_cons_of_ne_nil hne
    simp only [List.nil_append]
    rw [List.cons_append, replaceL_cons_eq]
    have hc : (p :: ps) ≠ [] ∧ (p :: ps) <+: (p :: (ps ++ b)) := by
      constructor
      · simp
      · exact ⟨b, by simp⟩
    rw [if_pos hc]
    congr 1
    have : (p :: (ps ++ b)).drop (p :: ps).length = b := by
      simp only [List.length_cons, List.drop_succ_cons]
      exact List.drop_left ps b
    rw [this]
  | cons c a' ih =>
    have hc : ¬ (pat ≠ [] ∧ pat <+: (c :: (a' ++ pat ++ b))) := by
      rintro ⟨hne, hpre⟩
      obtain ⟨p, ps, rfl⟩ := List.exists_cons_of_ne_nil hne
      simp only [List.head?_cons, Option.some.injEq] at hp
      obtain ⟨t, ht⟩ := hpre
      have : p = c := by
        have := congrArg (·.head?) ht
        simpa using this
      exact ha c (by simp) (by rw [← this, hp])
    rw [List.cons_append, List.cons_append, replaceL_cons_eq, if_neg hc]
    rw [List.cons_append, List.cons_append]
    congr 1
    exact ih (fun x hx => ha x (by simp [hx]))

end ReplaceLemmas

section EmitterLemmas

theorem apply_subst_empty (name value : String) (testing tc : Bool) :
    apply_subst "" name value testing tc = "" := by
  unfold apply_subst pyReplace
  cases testing <;> cases tc <;> simp [replaceL_nil]

/-- Substituting a macro definition template with `@`-free name and value
yields the literal `#define` line. -/
theorem apply_subst_define (name value : String) (testing : Bool)
    (hn : atFree name) (hv : atFree value) :
    apply_subst "#define @NAME@ @VALUE@" name value testing false
      = "#define " ++ name ++ " " ++ value := by
  have h1 : pyReplace "#define @NAME@ @VALUE@" "@NAME@" name
      = String.mk (("#define ").data ++ name.data ++ (" @VALUE@").data) := by
    unfold pyReplace
    have e : ("#define @NAME@ @VALUE@").data
        = ("#define ").data ++ ("@NAME@").data ++ (" @VALUE@").data := by decide
    rw [e, replaceL_append ("@NAME@").data name.data ("#define ").data
        (" @VALUE@").data (by rfl) (by decide),
      replaceL_eq_self _ _ _ (by decide)]
  have h2 : pyReplace (String.mk (("#define ").data ++ name.data ++ (" @VALUE@").data))
      "@VALUE@" value
      = String.mk (("#define ").data ++ name.data ++ (" ").data ++ value.data) := by
    unfold pyReplace
    have e : (String.mk (("#define ").data ++ name.data ++ (" @VALUE@").data)).data
        = (("#define ").data ++ name.data ++ (" ").data)
          ++ ("@VALUE@").data ++ ([] : List Char) := by
      show ("#define ").data ++ name.data ++ (" @VALUE@").data = _
      have h' : (" @VALUE@").data = (" ").data ++ ("@VALUE@").data := by decide
      rw [h']
      simp [List.append_assoc]
    have ha : ∀ c ∈ ("#define ").data ++ name.data ++ (" ").data, c ≠ '@' := by
      intro c hc
      simp only [List.mem_append] at hc
      rcases hc with (hc | hc) | hc
      · revert c; decide
      · exact hn c hc
      · revert c; decide
    rw [e, replaceL_append ("@VALUE@").data value.data
        (("#define ").data ++ name.data ++ (" ").data) [] (by rfl) ha,
      replaceL_nil]
    simp [List.append_assoc]
  have h3 : pyReplace (String.mk (("#define ").data ++ name.data ++ (" ").data ++ value.data))
      "@CONST@" "const"
      = String.mk (("#define ").data ++ name.data ++ (" ").data ++ value.data) := by
    unfold pyReplace
    congr 1
    apply replaceL_eq_self_of_atFree _ _ _ (by rfl)
    intro c hc
    simp only [List.mem_append] at hc
    rcases hc with ((hc | hc) | hc) | hc
    · revert c; decide
    · exact hn c hc
    · revert c; decide
    · exact hv c hc
  show apply_subst _ _ _ _ _ = _
  unfold apply_subst
  simp only [Bool.and_false, Bool.false_eq_true, if_false]
  rw [if_neg (by decide : ¬ ("const" : String) = ""), h1, h2, h3]
  apply String.ext
  show _ = ("#define " ++ name ++ " " ++ value).data
  simp [String.data_append, List.append_assoc]

/-- `classify_testing_changes` for a `VALUE`-typed option is always
`false`, whatever the decl. -/
theorem classify_value_eq_false (decl : String) :
    classify_testing_changes "VALUE" decl = Except.ok false := by
  unfold classify_testing_changes
  by_cases h1 : decl = "MACRO" <;> by_cases h2 : decl = "CUSTOM" <;>
    simp [h1, h2, pure, Except.pure, Bind.bind, Except.bind]

/-- A profile that does not name the option leaves the default value. -/
theorem get_value_of_absent (d : OptionDef) (cid : Option Dict)
    (hna : ∀ dd, cid = some dd → dictGet dd d.NAME = none) :
    get_value d.NAME d cid = d.DEFAULT := by
  cases cid with
  | none => rfl
  | some dd =>
    simp only [get_value]
    rw [hna dd rfl]

/-- A profile that does not name the option never triggers the
VALUE-override error. -/
theorem guard_of_absent (d : OptionDef) (cid : Option Dict)
    (hna : ∀ dd, cid = some dd → dictGet dd d.NAME = none) :
    value_option_set_error d.NAME d cid = false := by
  cases cid with
  | none => rfl
  | some dd =>
    simp only [value_option_set_error, dictHas]
    rw [hna dd rfl]
    simp

/-- With the VALUE-override guard passing and the classifier succeeding, a
present custom template short-circuits generation: the template is
substituted and returned, whatever `DECL` is. -/
theorem format_ch_def_decl_some (s : String) (d : OptionDef) (cid : Option Dict)
    (fmt : String) (tc : Bool)
    (hguard : value_option_set_error d.NAME d cid = false)
    (hclass : classify_testing_changes d.TYPE d.DECL = Except.ok tc) :
    format_ch_def_decl (some s) d cid fmt
      = Except.ok (apply_subst s d.NAME (get_value d.NAME d cid) (is_testing cid) tc) := by
  unfold format_ch_def_decl
  simp [hguard, hclass, Bind.bind, Except.bind, pure, Except.pure]

/-- Default generation for a plain `MACRO` decl. -/
theorem format_ch_def_decl_none_macro (d : OptionDef) (cid : Option Dict)
    (fmt : String) (tc : Bool)
    (hguard : value_option_set_error d.NAME d cid = false)
    (hclass : classify_testing_changes d.TYPE d.DECL = Except.ok tc)
    (hdecl : d.DECL = "MACRO") :
    format_ch_def_decl none d cid fmt
      = Except.ok (apply_subst
          (render_base "MACRO" "MACRO" "@NAME@ = @VALUE@;" (is_testing cid) tc fmt)
          d.NAME (get_value d.NAME d cid) (is_testing cid) tc) := by
  have hclass' := hclass
  rw [hdecl] at hclass'
  unfold format_ch_def_decl
  simp [hguard, hclass', hdecl, Bind.bind, Except.bind, pure, Except.pure]

/-- Default generation for a `CUSTOM` decl: empty text, before any
substitution. -/
theorem format_ch_def_decl_none_custom (d : OptionDef) (cid : Option Dict)
    (fmt : String) (tc : Bool)
    (hguard : value_option_set_error d.NAME d cid = false)
    (hclass : classify_testing_changes d.TYPE d.DECL = Except.ok tc)
    (hdecl : d.DECL = "CUSTOM") :
    format_ch_def_decl none d cid fmt = Except.ok "" := by
  have hclass' := hclass
  rw [hdecl] at hclass'
  unfold format_ch_def_decl
  simp [hguard, hclass', hdecl, Bind.bind, Except.bind, pure, Except.pure]

/-- Default generation for a `MACRO_*` / `CONST_*` / `VAR_*` decl with a
supported type suffix. -/
theorem format_ch_def_decl_none_prefix (d : OptionDef) (cid : Option Dict)
    (fmt : String) (tc : Bool) (orig ds : String)
    (hguard : value_option_set_error d.NAME d cid = false)
    (hclass : classify_testing_changes d.TYPE d.DECL = Except.ok tc)
    (h1 : d.DECL ≠ "MACRO") (h2 : d.DECL ≠ "CUSTOM")
    (hsw : (strStartsWith d.DECL "MACRO_" || strStartsWith d.DECL "CONST_"
      || strStartsWith d.DECL "VAR_") = true)
    (horig : (if strStartsWith d.DECL "MACRO_" || strStartsWith d.DECL "CONST_"
      then strDrop d.DECL 6 else strDrop d.DECL 4) = orig)
    (hdd : decl_dict orig = some ds) :
    format_ch_def_decl none d cid fmt
      = Except.ok (apply_subst
          (render_base
            (if strStartsWith d.DECL "MACRO_" then "MACRO"
              else if strStartsWith d.DECL "CONST_" then "CONST" else "VAR")
            ds ((test_assign_dict orig).getD "@NAME@ = @VALUE@;")
            (is_testing cid) tc fmt)
          d.NAME (get_value d.NAME d cid) (is_testing cid) tc) := by
  unfold format_ch_def_decl
  simp only [Bool.or_eq_true] at horig
  simp [hguard, hclass, h1, h2, hsw, horig, hdd, Bind.bind, Except.bind, pure, Except.pure]

/-- A failing classifier (unsupported `TYPE`) aborts every mode, custom
template or not. -/
theorem format_ch_def_decl_class_error (code0 : Option String) (d : OptionDef)
    (cid : Option Dict) (fmt : String) (msg : String)
    (hguard : value_option_set_error d.NAME d cid = false)
    (hclass : classify_testing_changes d.TYPE d.DECL = Except.error msg) :
    format_ch_def_decl code0 d cid fmt = Except.error msg := by
  unfold format_ch_def_decl
  simp [hguard, hclass, Bind.bind, Except.bind, pure, Except.pure]

/-- Default generation with a decl matching none of `MACRO`, `CUSTOM`,
`MACRO_*`, `CONST_*`, `VAR_*` is a fatal "not implemented" error. -/
theorem format_ch_def_decl_none_bad_pattern (d : OptionDef) (cid : Option Dict)
    (fmt : String) (tc : Bool)
    (hguard : value_option_set_error d.NAME d cid = false)
    (hclass : classify_testing_changes d.TYPE d.DECL = Except.ok tc)
    (h1 : d.DECL ≠ "MACRO") (h2 : d.DECL ≠ "CUSTOM")
    (hsw : (strStartsWith d.DECL "MACRO_" || strStartsWith d.DECL "CONST_"
      || strStartsWith d.DECL "VAR_") = false) :
    format_ch_def_decl none d cid fmt
      = Except.error ("DECL = \"" ++ d.DECL ++ "\" is not implemented. Valid: [\"MACRO_*\", \"CONST_*\", \"VAR_*\"].") := by
  unfold format_ch_def_decl
  simp [hguard, hclass, h1, h2, hsw, Bind.bind, Except.bind, pure, Except.pure,
    throw, throwThe, MonadExceptOf.throw]

/-- Default generation with a `MACRO_*` / `CONST_*` / `VAR_*` decl whose
type suffix is unsupported is a fatal "not implemented" error. -/
theorem format_ch_def_decl_none_bad_suffix (d : OptionDef) (cid : Option Dict)
    (fmt : String) (tc : Bool) (orig : String)
    (hguard : value_option_set_error d.NAME d cid = false)
    (hclass : classify_testing_changes d.TYPE d.DECL = Except.ok tc)
    (h1 : d.DECL ≠ "MACRO") (h2 : d.DECL ≠ "CUSTOM")
    (hsw : (strStartsWith d.DECL "MACRO_" || strStartsWith d.DECL "CONST_"
      || strStartsWith d.DECL "VAR_") = true)
    (horig : (if strStartsWith d.DECL "MACRO_" || strStartsWith d.DECL "CONST_"
      then strDrop d.DECL 6 else strDrop d.DECL 4) = orig)
    (hdd : decl_dict orig = none) :
    format_ch_def_decl none d cid fmt
      = Except.error ("DECL = \"" ++ d.DECL ++ "\" is not implemented. Valid: [\"*_UINT8\", etc].") := by
  unfold format_ch_def_decl
  simp only [Bool.or_eq_true] at horig
  simp [hguard, hclass, h1, h2, hsw, horig, hdd, Bind.bind, Except.bind, pure, Except.pure,
    throw, throwThe, MonadExceptOf.throw]

end EmitterLemmas

section Fixtures

/-- The end-to-end example option of the spec: `MACRO_UINT8`, default 5. -/
def optFoo : OptionDef :=
  { NAME := "FOO", DEFAULT := "5", TYPE := "OPTION", DECL := "MACRO_UINT8",
    BRIEF := "Example toggle" }

/-- A non-testing profile. -/
def profP : Dict :=
  [("CHAR_ID", FieldVal.str "P"), ("BRIEF", FieldVal.str "Profile P"),
   ("TESTING", FieldVal.str "0")]

/-- A testing profile overriding `FOO` with 7. -/
def profQ : Dict :=
  [("CHAR_ID", FieldVal.str "Q"), ("BRIEF", FieldVal.str "Profile Q"),
   ("TESTING", FieldVal.str "1"), ("FOO", FieldVal.str "7")]

/-- A testing profile with no overrides. -/
def profT : Dict :=
  [("CHAR_ID", FieldVal.str "T"), ("BRIEF", FieldVal.str "Profile T"),
   ("TESTING", FieldVal.str "1")]

/-- A `VALUE`-typed option declared as a variable (`VAR_INT32`). -/
def optSpeedVar : OptionDef :=
  { NAME := "SPEED", DEFAULT := "5", TYPE := "VALUE", DECL := "VAR_INT32",
    BRIEF := "Speed value" }

/-- A `VALUE`-typed option declared `MACRO_UINT8`. -/
def optW : OptionDef :=
  { NAME := "W", DEFAULT := "3", TYPE := "VALUE", DECL := "MACRO_UINT8",
    BRIEF := "w" }

/-- A `CUSTOM` option with no templates. -/
def optCustom : OptionDef :=
  { NAME := "CX", DEFAULT := "5", TYPE := "OPTION", DECL := "CUSTOM",
    BRIEF := "custom option" }

/-- A `CUSTOM` option that does supply a `TEST_ASSIGN` template. -/
def optCustomTA : OptionDef :=
  { NAME := "CX", DEFAULT := "5", TYPE := "OPTION", DECL := "CUSTOM",
    BRIEF := "custom option", TEST_ASSIGN := some "@NAME@ = @VALUE@;" }

/-- Base profile `A` with a description and the override `X = 1`. -/
def rawBaseA : Dict :=
  [("CHAR_ID", FieldVal.str "A"), ("BRIEF", FieldVal.str "Base"),
   ("DESCRIPTION", FieldVal.str "base description"), ("X", FieldVal.str "1")]

/-- Child profile `B` based on `A`, with the override `Y = 2`. -/
def rawChildB : Dict :=
  [("CHAR_ID", FieldVal.str "B"), ("BRIEF", FieldVal.str "Child"),
   ("BASED_ON", FieldVal.str "A"), ("Y", FieldVal.str "2")]

/-- Child profile `B` that additionally re-specifies `X = 9`. -/
def rawChildB9 : Dict :=
  [("CHAR_ID", FieldVal.str "B"), ("BRIEF", FieldVal.str "Child"),
   ("BASED_ON", FieldVal.str "A"), ("X", FieldVal.str "9"), ("Y", FieldVal.str "2")]

/-- A `VALUE` option named `X`, plain macro. -/
def optXValue : OptionDef :=
  { NAME := "X", DEFAULT := "5", TYPE := "VALUE", DECL := "MACRO",
    BRIEF := "x value" }

/-- A raw profile that (illegally) overrides the `VALUE` option `X`. -/
def rawProfPX : Dict :=
  [("CHAR_ID", FieldVal.str "P"), ("BRIEF", FieldVal.str "p"),
   ("X", FieldVal.str "7")]

/-- An option with an unsupported `TYPE`. -/
def optBadType : OptionDef :=
  { NAME := "B", DEFAULT := "0", TYPE := "WEIRD", DECL := "MACRO",
    BRIEF := "bad type" }

/-- An option with an unsupported `DECL` pattern and no templates. -/
def optBadDecl : OptionDef :=
  { NAME := "G", DEFAULT := "0", TYPE := "OPTION", DECL := "GARBAGE",
    BRIEF := "bad decl" }

/-- An option with an unsupported `DECL` pattern but a custom `H`
template. -/
def optBadDeclH : OptionDef :=
  { NAME := "G", DEFAULT := "0", TYPE := "OPTION", DECL := "GARBAGE",
    BRIEF := "bad decl", H := some "void f(void);" }

end Fixtures

section Claims

/-- C1 (amended): for an option with `TYPE = VALUE` whose decl is `MACRO`
or a supported `MACRO_<T>` and which carries no custom `H`/`TEST_ASSIGN`
template, every profile that does not name the option gets exactly the
header declaration `#define <NAME> <DEFAULT>` and an empty test-reset
assignment, testing enabled or not. -/
theorem c1_value_macro_family (d : OptionDef) (cid : Option Dict)
    (hT : d.TYPE = "VALUE")
    (hH : d.H = none) (hTA : d.TEST_ASSIGN = none)
    (hD : d.DECL = "MACRO" ∨
      (strStartsWith d.DECL "MACRO_" = true ∧ d.DECL ≠ "MACRO" ∧ d.DECL ≠ "CUSTOM" ∧
        (decl_dict (strDrop d.DECL 6)).isSome = true))
    (hna : ∀ dd, cid = some dd → dictGet dd d.NAME = none)
    (hn : atFree d.NAME) (hv : atFree d.DEFAULT) :
    format_h_declaration d cid = Except.ok ("#define " ++ d.NAME ++ " " ++ d.DEFAULT)
      ∧ format_c_assignment d cid = Except.ok "" := by
  have hguard := guard_of_absent d cid hna
  have hclass : classify_testing_changes d.TYPE d.DECL = Except.ok false := by
    rw [hT]; exact classify_value_eq_false d.DECL
  have hval := get_value_of_absent d cid hna
  rcases hD with hdecl | ⟨hsw, h1, h2, hdd⟩
  · constructor
    · unfold format_h_declaration
      rw [hH, format_ch_def_decl_none_macro d cid "decl" false hguard hclass hdecl]
      have hr : render_base "MACRO" "MACRO" "@NAME@ = @VALUE@;" (is_testing cid) false "decl"
          = "#define @NAME@ @VALUE@" := by
        simp [render_base]
      rw [hr, hval, apply_subst_define d.NAME d.DEFAULT (is_testing cid) hn hv]
    · unfold format_c_assignment
      rw [hTA, format_ch_def_decl_none_macro d cid "assign" false hguard hclass hdecl]
      have hr : render_base "MACRO" "MACRO" "@NAME@ = @VALUE@;" (is_testing cid) false "assign"
          = "" := by
        simp [render_base]
      rw [hr, apply_subst_empty]
  · obtain ⟨ds, hds⟩ := Option.isSome_iff_exists.mp hdd
    have hsw3 : (strStartsWith d.DECL "MACRO_" || strStartsWith d.DECL "CONST_"
        || strStartsWith d.DECL "VAR_") = true := by
      simp [hsw]
    have horig : (if strStartsWith d.DECL "MACRO_" || strStartsWith d.DECL "CONST_"
        then strDrop d.DECL 6 else strDrop d.DECL 4) = strDrop d.DECL 6 := by
      simp [hsw]
    constructor
    · unfold format_h_declaration
      rw [hH, format_ch_def_decl_none_prefix d cid "decl" false (strDrop d.DECL 6) ds
        hguard hclass h1 h2 hsw3 horig hds]
      have hbase : (if strStartsWith d.DECL "MACRO_" then "MACRO"
          else if strStartsWith d.DECL "CONST_" then "CONST" else "VAR") = "MACRO" := by
        simp [hsw]
      rw [hbase]
      have hr : render_base "MACRO" ds ((test_assign_dict (strDrop d.DECL 6)).getD "@NAME@ = @VALUE@;")
          (is_testing cid) false "decl" = "#define @NAME@ @VALUE@" := by
        simp [render_base]
      rw [hr, hval, apply_subst_define d.NAME d.DEFAULT (is_testing cid) hn hv]
    · unfold format_c_assignment
      rw [hTA, format_ch_def_decl_none_prefix d cid "assign" false (strDrop d.DECL 6) ds
        hguard hclass h1 h2 hsw3 horig hds]
      have hbase : (if strStartsWith d.DECL "MACRO_" then "MACRO"
          else if strStartsWith d.DECL "CONST_" then "CONST" else "VAR") = "MACRO" := by
        simp [hsw]
      rw [hbase]
      have hr : render_base "MACRO" ds ((test_assign_dict (strDrop d.DECL 6)).getD "@NAME@ = @VALUE@;")
          (is_testing cid) false "assign" = "" := by
        simp [render_base]
      rw [hr, apply_subst_empty]

/-- C1 witness: the amended statement at a concrete `MACRO_UINT8` VALUE
option in a testing profile. -/
theorem c1_value_macro_family_witness :
    format_h_declaration optW (some profT) = Except.ok ("#define " ++ "W" ++ " " ++ "3")
    ∧ format_c_assignment optW (some profT) = Except.ok "" :=
  c1_value_macro_family optW (some profT) rfl rfl rfl
    (Or.inr ⟨by decide, by decide, by decide, by decide⟩)
    (fun dd hdd => by cases hdd; decide) (by decide) (by decide)

/-- C1 counterexample: a `VALUE` option declared `VAR_INT32` gets an
`extern` declaration (not a `#define`) and a non-empty reset assignment,
so the claim's "for any DECL" fails. -/
theorem c1_counterexample :
    format_h_declaration optSpeedVar (some profT) = Except.ok "extern int32_t SPEED;"
    ∧ (Except.ok "extern int32_t SPEED;" : Except String String) ≠ Except.ok "#define SPEED 5"
    ∧ format_c_assignment optSpeedVar (some profT) = Except.ok "SPEED = 5;"
    ∧ (Except.ok "SPEED = 5;" : Except String String) ≠ Except.ok "" := by
  refine ⟨by decide, by decide, by decide, by decide⟩

/-- C2: the end-to-end example: `FOO` (`MACRO_UINT8`, default 5) renders
as `#define FOO 5` in non-testing profile P; in testing profile Q with
override 7 it renders as an extern variable declared in the header,
defined in the source, and reset inside `testing_reset_toggles`. -/
theorem c2_end_to_end :
    format_h_declaration optFoo (some profP) = Except.ok "#define FOO 5"
    ∧ format_h_declaration optFoo (some profQ) = Except.ok "extern uint8_t FOO;"
    ∧ format_c_definition optFoo (some profQ) = Except.ok "uint8_t FOO = 7;"
    ∧ write_char_id_source_code [optFoo] profQ list_set_default
        = Except.ok ("uint8_t FOO = 7;\n\nvoid testing_reset_toggles(void)\n\x7b\n    "
            ++ "FOO = 7;" ++ "\n\x7d\n") := by
  refine ⟨by decide, by decide, by decide, by decide⟩

/-- C3 (amended): `CUSTOM` options are never classified
testing-changeable and, when they supply no `TEST_ASSIGN` template,
contribute an empty assignment; a supplied `TEST_ASSIGN` template is
emitted nonetheless (see the counterexample). -/
theorem c3_custom_not_mutable_no_default_reset :
    (∀ typ tc, classify_testing_changes typ "CUSTOM" = Except.ok tc → tc = false)
    ∧ (∀ (d : OptionDef) (cid : Option Dict),
        d.DECL = "CUSTOM" → d.TEST_ASSIGN = none →
        value_option_set_error d.NAME d cid = false →
        (d.TYPE = "VALUE" ∨ d.TYPE = "OPTION") →
        format_c_assignment d cid = Except.ok "") := by
  constructor
  · intro typ tc h
    by_cases h1 : typ = "VALUE"
    · simp [classify_testing_changes, h1, pure, Except.pure, Bind.bind, Except.bind] at h
      exact h
    · by_cases h2 : typ = "OPTION"
      · simp [classify_testing_changes, h1, h2, pure, Except.pure, Bind.bind, Except.bind] at h
        exact h
      · simp [classify_testing_changes, h1, h2, pure, Except.pure, Bind.bind, Except.bind,
          throw, throwThe, MonadExceptOf.throw] at h
  · intro d cid hdecl hTA hguard htyp
    have hclass : classify_testing_changes d.TYPE d.DECL = Except.ok false := by
      rcases htyp with h | h <;>
        simp [classify_testing_changes, h, hdecl, pure, Except.pure, Bind.bind, Except.bind]
    unfold format_c_assignment
    rw [hTA, format_ch_def_decl_none_custom d cid "assign" false hguard hclass hdecl]

/-- C3 witness: the amended statement at a concrete `CUSTOM` option in a
testing profile. -/
theorem c3_custom_not_mutable_witness :
    format_c_assignment optCustom (some profT) = Except.ok ""
    ∧ false = false :=
  ⟨c3_custom_not_mutable_no_default_reset.2 optCustom (some profT) rfl rfl
      (by decide) (Or.inr rfl),
    c3_custom_not_mutable_no_default_reset.1 "OPTION" false (by decide)⟩

/-- C3 counterexample: a `CUSTOM` option that supplies a `TEST_ASSIGN`
template does contribute an assignment, and it lands inside the
generated `testing_reset_toggles` body. -/
theorem c3_counterexample :
    format_c_assignment optCustomTA (some profT) = Except.ok "CX = 5;"
    ∧ (Except.ok "CX = 5;" : Except String String) ≠ Except.ok ""
    ∧ write_char_id_source_code [optCustomTA] profT list_set_default
        = Except.ok ("void testing_reset_toggles(void)\n\x7b\n    "
            ++ "CX = 5;" ++ "\n\x7d\n") := by
  refine ⟨by decide, by decide, by decide⟩

/-- C4: profile inheritance is the ordered override-merge the spec
states: the resolver's `xx = \x7b\x7d; xx.update(parent)…; xx.update(x)` chain
looks up as "own field first, else the last parent carrying the field";
`merge_bases` is exactly that parent fold; and on the concrete `A`/`B`
example the resolved `B` has `X = 1, Y = 2` (or `X = 9` when `B`
re-specifies `X`). -/
theorem c4_inheritance_merge :
    (∀ (parents : List Dict) (x : Dict) (k : String),
      (x.map Prod.fst).Nodup → (∀ p ∈ parents, (p.map Prod.fst).Nodup) →
      dictGet (dictUpdate (parents.foldl dictUpdate []) x) k = spec_merge_lookup parents x k)
    ∧ (∀ (acc : List (String × Dict)) (bs : List String) (parents : List Dict) (xx : Dict),
        bs.mapM (fun b => assocGet acc b) = some parents →
        merge_bases acc bs xx = Except.ok (parents.foldl dictUpdate xx))
    ∧ resolved_field (read_char_ids [rawBaseA, rawChildB]) "B" "X" = some (FieldVal.str "1")
    ∧ resolved_field (read_char_ids [rawBaseA, rawChildB]) "B" "Y" = some (FieldVal.str "2")
    ∧ resolved_field (read_char_ids [rawBaseA, rawChildB9]) "B" "X" = some (FieldVal.str "9")
    ∧ resolved_field (read_char_ids [rawBaseA, rawChildB9]) "B" "Y" = some (FieldVal.str "2") := by
  refine ⟨?_, ?_, by decide, by decide, by decide, by decide⟩
  · intro parents x k hx hp
    rw [dictGet_dictUpdate _ _ _ hx, dictGet_update_chain parents [] k hp, dictGet_nil]
    unfold spec_merge_lookup
    cases dictGet x k <;> cases parents.reverse.findSome? (fun p => dictGet p k) <;> rfl
  · intro acc bs
    induction bs with
    | nil =>
      intro parents xx hmap
      simp only [List.mapM_nil, pure, Option.some.injEq] at hmap
      subst hmap
      rfl
    | cons b bs ih =>
      intro parents xx hmap
      rw [List.mapM_cons] at hmap
      cases hb : assocGet acc b with
      | none => rw [hb] at hmap; simp at hmap
      | some p =>
        rw [hb] at hmap
        cases hbs : bs.mapM (fun b => assocGet acc b) with
        | none => rw [hbs] at hmap; simp at hmap
        | some ps =>
          rw [hbs] at hmap
          simp only [Option.bind_eq_bind, Option.some_bind, pure, Option.some.injEq] at hmap
          subst hmap
          show merge_bases acc (b :: bs) xx = Except.ok ((p :: ps).foldl dictUpdate xx)
          unfold merge_bases
          rw [hb]
          exact ih ps (dictUpdate xx p) hbs

/-- C4 witness: the merge law at a concrete one-parent instance. -/
theorem c4_inheritance_merge_witness :
    dictGet (dictUpdate ([[("X", FieldVal.str "1")]].foldl dictUpdate [])
        [("Y", FieldVal.str "2")]) "X"
      = spec_merge_lookup [[("X", FieldVal.str "1")]] [("Y", FieldVal.str "2")] "X" :=
  c4_inheritance_merge.1 [[("X", FieldVal.str "1")]] [("Y", FieldVal.str "2")] "X"
    (by decide) (by decide)

/-- C5 (amended): an inherited field the child does not carry after
normalization is preserved from the parents (last parent wins); but the
normalization inserts `DESCRIPTION` and `BASED_ON` (as `None` when the
child omits them) before the merge, so those two fields — and the
mandatory `CHAR_ID`/`BRIEF` — are always the child's, never inherited:
concretely, `B` inheriting from `A` with a description resolves with
`DESCRIPTION = None`, not `A`'s text. -/
theorem c5_inherited_fields :
    (∀ (parents : List Dict) (x : Dict) (k : String),
      ((normalize_profile x).map Prod.fst).Nodup →
      (∀ p ∈ parents, (p.map Prod.fst).Nodup) →
      dictGet (normalize_profile x) k = none →
      dictGet (dictUpdate (parents.foldl dictUpdate []) (normalize_profile x)) k
        = parents.reverse.findSome? (fun p => dictGet p k))
    ∧ (∀ x : Dict, dictHas (normalize_profile x) "DESCRIPTION" = true
        ∧ dictHas (normalize_profile x) "BASED_ON" = true)
    ∧ resolved_field (read_char_ids [rawBaseA, rawChildB]) "B" "DESCRIPTION"
        = some FieldVal.null := by
  refine ⟨?_, ?_, by decide⟩
  · intro parents x k hx hp hnone
    rw [dictGet_dictUpdate _ _ _ hx, dictGet_update_chain parents [] k hp, dictGet_nil, hnone]
    cases parents.reverse.findSome? (fun p => dictGet p k) <;> rfl
  · intro x
    unfold normalize_profile dictHas
    by_cases h1 : dictHas x "DESCRIPTION" = true <;>
      by_cases h2 : dictHas x "BASED_ON" = true <;>
        simp [h1, h2, dictHas, dictGet_dictSet] at * <;>
          simp [dictGet_dictSet, h1, h2]

/-- C5 witness: the preservation law at a concrete instance (field `X`
inherited from a single parent by a child that lacks it). -/
theorem c5_inherited_fields_witness :
    dictGet (dictUpdate ([[("X", FieldVal.str "1")]].foldl dictUpdate [])
        (normalize_profile [("CHAR_ID", FieldVal.str "B"), ("BRIEF", FieldVal.str "b")])) "X"
      = [[("X", FieldVal.str "1")]].reverse.findSome? (fun p => dictGet p "X") :=
  c5_inherited_fields.1 [[("X", FieldVal.str "1")]]
    [("CHAR_ID", FieldVal.str "B"), ("BRIEF", FieldVal.str "b")] "X"
    (by decide) (by decide) (by decide)

/-- C5 counterexample: the claim says `DESCRIPTION` is preserved from
the parent when the child omits it; in fact the resolved child has
`DESCRIPTION = None` because normalization inserts it before the merge. -/
theorem c5_counterexample :
    resolved_field (read_char_ids [rawBaseA, rawChildB]) "B" "DESCRIPTION"
        = some FieldVal.null
    ∧ resolved_field (read_char_ids [rawBaseA, rawChildB]) "B" "DESCRIPTION"
        ≠ some (FieldVal.str "base description")
    ∧ dictGet rawBaseA "DESCRIPTION" = some (FieldVal.str "base description") := by
  refine ⟨by decide, by decide, by decide⟩

/-- C6 (amended): overriding a `VALUE`-typed option from a profile aborts
the run with a configuration error during that profile's emission, but
the master toggle header and master source have already been written by
then (the driver writes them before validating the per-profile files,
for any default value, any override value and any set order). -/
theorem c6_value_override_aborts_after_master_files
    (setOrder : List String → List String) (defaultv overridev : String) :
    (run_main setOrder
      [{ NAME := "X", DEFAULT := defaultv, TYPE := "VALUE", DECL := "MACRO",
         BRIEF := "x value" }]
      [[("CHAR_ID", FieldVal.str "P"), ("BRIEF", FieldVal.str "p"),
        ("X", FieldVal.str overridev)]]).err.isSome = true
    ∧ (run_main setOrder
      [{ NAME := "X", DEFAULT := defaultv, TYPE := "VALUE", DECL := "MACRO",
         BRIEF := "x value" }]
      [[("CHAR_ID", FieldVal.str "P"), ("BRIEF", FieldVal.str "p"),
        ("X", FieldVal.str overridev)]]).files.map Prod.fst
      = ["include/toggle.h", "src/toggle.c"] :=
  ⟨rfl, rfl⟩

/-- C6 counterexample: on the concrete illegal configuration the run does
abort, but the list of files already written is not empty — the master
header and master source were produced — refuting "no output files are
produced". -/
theorem c6_counterexample :
    (run_main list_set_default [optXValue] [rawProfPX]).err.isSome = true
    ∧ (run_main list_set_default [optXValue] [rawProfPX]).files.map Prod.fst
        = ["include/toggle.h", "src/toggle.c"]
    ∧ (run_main list_set_default [optXValue] [rawProfPX]).files ≠ [] := by
  have hmap : (run_main list_set_default [optXValue] [rawProfPX]).files.map Prod.fst
      = ["include/toggle.h", "src/toggle.c"] := rfl
  refine ⟨rfl, hmap, fun h => ?_⟩
  rw [h] at hmap
  exact List.noConfusion hmap

/-- C7 (amended): an unsupported `TYPE` is fatal for every mode, custom
template or not; an unsupported `DECL` (pattern or type suffix) is fatal
for every mode whose custom template is absent — there is no fallback
rendering.  (A mode with a custom template emits the template instead;
see the counterexample and C10.) -/
theorem c7_unsupported_is_fatal :
    (∀ (code0 : Option String) (d : OptionDef) (cid : Option Dict) (fmt : String),
      value_option_set_error d.NAME d cid = false →
      d.TYPE ≠ "VALUE" → d.TYPE ≠ "OPTION" →
      ∃ e, format_ch_def_decl code0 d cid fmt = Except.error e)
    ∧ (∀ (d : OptionDef) (cid : Option Dict) (fmt : String),
      value_option_set_error d.NAME d cid = false →
      (d.TYPE = "VALUE" ∨ d.TYPE = "OPTION") →
      d.DECL ≠ "MACRO" → d.DECL ≠ "CUSTOM" →
      ((strStartsWith d.DECL "MACRO_" || strStartsWith d.DECL "CONST_"
          || strStartsWith d.DECL "VAR_") = false
        ∨ decl_dict (if strStartsWith d.DECL "MACRO_" || strStartsWith d.DECL "CONST_"
            then strDrop d.DECL 6 else strDrop d.DECL 4) = none) →
      ∃ e, format_ch_def_decl none d cid fmt = Except.error e) := by
  constructor
  · intro code0 d cid fmt hguard h1 h2
    have hclass : classify_testing_changes d.TYPE d.DECL
        = Except.error ("TYPE = \"" ++ d.TYPE ++ "\" is not implemented. Valid: [\"VALUE\", \"OPTION\"].") := by
      simp [classify_testing_changes, h1, h2, pure, Except.pure, Bind.bind, Except.bind,
        throw, throwThe, MonadExceptOf.throw]
    exact ⟨_, format_ch_def_decl_class_error code0 d cid fmt _ hguard hclass⟩
  · intro d cid fmt hguard htyp h1 h2 hbad
    have hclass : ∃ tc, classify_testing_changes d.TYPE d.DECL = Except.ok tc := by
      rcases htyp with h | h
      · exact ⟨false, by rw [h]; exact classify_value_eq_false d.DECL⟩
      · exact ⟨true, by
          simp [classify_testing_changes, h, h1, h2, pure, Except.pure, Bind.bind, Except.bind]⟩
    obtain ⟨tc, hclass⟩ := hclass
    by_cases hsw : (strStartsWith d.DECL "MACRO_" || strStartsWith d.DECL "CONST_"
        || strStartsWith d.DECL "VAR_") = true
    · rcases hbad with hfalse | hdd
      · rw [hsw] at hfalse; exact absurd hfalse (by simp)
      · exact ⟨_, format_ch_def_decl_none_bad_suffix d cid fmt tc _ hguard hclass h1 h2 hsw rfl hdd⟩
    · have hsw' : (strStartsWith d.DECL "MACRO_" || strStartsWith d.DECL "CONST_"
          || strStartsWith d.DECL "VAR_") = false := by
        cases hx : (strStartsWith d.DECL "MACRO_" || strStartsWith d.DECL "CONST_"
          || strStartsWith d.DECL "VAR_")
        · rfl
        · exact absurd hx hsw
      exact ⟨_, format_ch_def_decl_none_bad_pattern d cid fmt tc hguard hclass h1 h2 hsw'⟩

/-- C7 witness: concrete fatal runs for an unsupported `TYPE` and for an
unsupported `DECL` without templates. -/
theorem c7_unsupported_is_fatal_witness :
    (∃ e, format_ch_def_decl none optBadType none "decl" = Except.error e)
    ∧ (∃ e, format_ch_def_decl none optBadDecl none "decl" = Except.error e) :=
  ⟨c7_unsupported_is_fatal.1 none optBadType none "decl" rfl (by decide) (by decide),
   c7_unsupported_is_fatal.2 optBadDecl none "decl" rfl (Or.inr rfl)
     (by decide) (by decide) (Or.inl (by decide))⟩

/-- C7 counterexample: an option with unsupported `DECL = "GARBAGE"` but
a custom `H` template renders that template without any error, so "for
every option whose DECL is unsupported, emission for any profile fails"
is false as stated. -/
theorem c7_counterexample :
    format_h_declaration optBadDeclH (some profP) = Except.ok "void f(void);"
    ∧ ∀ e, format_h_declaration optBadDeclH (some profP) ≠ Except.error e := by
  have h : format_h_declaration optBadDeclH (some profP) = Except.ok "void f(void);" := by
    decide
  refine ⟨h, fun e he => ?_⟩
  rw [h] at he
  exact Except.noConfusion he

theorem str_append_assoc (a b c : String) : a ++ b ++ c = a ++ (b ++ c) := by
  apply String.ext
  simp [String.data_append, List.append_assoc]

/-- The `k`-th define line of the `enumerate` loop, starting the counter
at `j`, carries the number `j + k + 1`. -/
theorem char_id_define_lines_get :
    ∀ (chars : List (String × Dict)) (j i : Nat) (h : i < chars.length),
      ∃ a b, char_id_define_lines j chars
        = a ++ ("#define " ++ (chars.get ⟨i, h⟩).1 ++ " " ++ toString (j + i + 1)
            ++ " /**< @brief " ++ getStr (chars.get ⟨i, h⟩).2 "BRIEF" ++ " */\n") ++ b := by
  intro chars
  induction chars with
  | nil => intro j i h; simp at h
  | cons p rest ih =>
    intro j i h
    cases i with
    | zero =>
      refine ⟨"", char_id_define_lines (j + 1) rest, ?_⟩
      show char_id_define_lines j (p :: rest) = _
      obtain ⟨cid, d⟩ := p
      rw [char_id_define_lines]
      apply String.ext
      simp [String.data_append, List.append_assoc]
    | succ i' =>
      have h' : i' < rest.length := by simpa using Nat.lt_of_succ_lt_succ h
      obtain ⟨a, b, hab⟩ := ih (j + 1) i' h'
      refine ⟨("#define " ++ p.1 ++ " " ++ toString (j + 1) ++ " /**< @brief "
        ++ getStr p.2 "BRIEF" ++ " */\n") ++ a, b, ?_⟩
      show char_id_define_lines j (p :: rest) = _
      obtain ⟨cid, d⟩ := p
      rw [char_id_define_lines, hab]
      have he : j + 1 + i' + 1 = j + (i' + 1) + 1 := by omega
      rw [he]
      apply String.ext
      simp [String.data_append, List.append_assoc]

/-- The enumerated profile table of the master header fixture. -/
def threeProfiles : List (String × Dict) :=
  [("P1", [("BRIEF", FieldVal.str "b1")]),
   ("P2", [("BRIEF", FieldVal.str "b2")]),
   ("P3", [("BRIEF", FieldVal.str "b3")])]

set_option maxRecDepth 40000 in
/-- C9: the master header's CHAR_ID block numbers the profiles densely
from 1 in declaration order (the `i`-th profile gets `i+1`), defines
`NUM_CHAR_IDS` as the number of profiles, and emits the compile-time
range check; three profiles `P1, P2, P3` yield exactly `1, 2, 3` and
`NUM_CHAR_IDS 3`. -/
theorem c9_master_char_id_numbering :
    (∀ (chars : List (String × Dict)) (i : Nat) (h : i < chars.length),
      ∃ a b, code_char_ids_block chars
        = a ++ ("#define " ++ (chars.get ⟨i, h⟩).1 ++ " " ++ toString (i + 1)
            ++ " /**< @brief " ++ getStr (chars.get ⟨i, h⟩).2 "BRIEF" ++ " */\n") ++ b)
    ∧ (∀ chars : List (String × Dict), ∃ a b, code_char_ids_block chars
        = a ++ ("\n#define NUM_CHAR_IDS " ++ toString chars.length) ++ b)
    ∧ (∀ chars : List (String × Dict), ∃ a b, code_char_ids_block chars
        = a ++ "#if (CHAR_ID < 1 || CHAR_ID > NUM_CHAR_IDS)\n    #error \"Macro CHAR_ID is not in the valid range.\"\n#endif" ++ b)
    ∧ code_char_ids_block threeProfiles
        = "/* List of CHAR_IDs. */\n#define P1 1 /**< @brief b1 */\n#define P2 2 /**< @brief b2 */\n#define P3 3 /**< @brief b3 */\n\n#define NUM_CHAR_IDS 3 /**< @brief Number of char IDs. */\n\n/* Validate CHAR_ID range. */\n#if (CHAR_ID < 1 || CHAR_ID > NUM_CHAR_IDS)\n    #error \"Macro CHAR_ID is not in the valid range.\"\n#endif\n\n" := by
  refine ⟨?_, ?_, ?_, by decide⟩
  · intro chars i h
    obtain ⟨a, b, hab⟩ := char_id_define_lines_get chars 0 i h
    have hz : 0 + i + 1 = i + 1 := by omega
    rw [hz] at hab
    refine ⟨"/* List of CHAR_IDs. */\n" ++ a,
      b ++ ("\n#define NUM_CHAR_IDS " ++ toString chars.length
        ++ " /**< @brief Number of char IDs. */\n\n/* Validate CHAR_ID range. */\n#if (CHAR_ID < 1 || CHAR_ID > NUM_CHAR_IDS)\n    #error \"Macro CHAR_ID is not in the valid range.\"\n#endif\n\n"), ?_⟩
    unfold code_char_ids_block
    rw [hab]
    apply String.ext
    simp [String.data_append, List.append_assoc]
  · intro chars
    refine ⟨"/* List of CHAR_IDs. */\n" ++ char_id_define_lines 0 chars,
      " /**< @brief Number of char IDs. */\n\n/* Validate CHAR_ID range. */\n#if (CHAR_ID < 1 || CHAR_ID > NUM_CHAR_IDS)\n    #error \"Macro CHAR_ID is not in the valid range.\"\n#endif\n\n", ?_⟩
    unfold code_char_ids_block
    apply String.ext
    simp [String.data_append, List.append_assoc]
  · intro chars
    refine ⟨"/* List of CHAR_IDs. */\n" ++ char_id_define_lines 0 chars
      ++ ("\n#define NUM_CHAR_IDS " ++ toString chars.length)
      ++ " /**< @brief Number of char IDs. */\n\n/* Validate CHAR_ID range. */\n",
      "\n\n", ?_⟩
    unfold code_char_ids_block
    have hsplit : (" /**< @brief Number of char IDs. */\n\n/* Validate CHAR_ID range. */\n#if (CHAR_ID < 1 || CHAR_ID > NUM_CHAR_IDS)\n    #error \"Macro CHAR_ID is not in the valid range.\"\n#endif\n\n" : String)
        = " /**< @brief Number of char IDs. */\n\n/* Validate CHAR_ID range. */\n"
          ++ "#if (CHAR_ID < 1 || CHAR_ID > NUM_CHAR_IDS)\n    #error \"Macro CHAR_ID is not in the valid range.\"\n#endif"
          ++ "\n\n" := by decide
    rw [hsplit]
    apply String.ext
    simp [String.data_append, List.append_assoc]

/-- C9 witness: the numbering law applied at the first profile of the
three-profile fixture. -/
theorem c9_master_char_id_numbering_witness :
    ∃ a b, code_char_ids_block threeProfiles
      = a ++ ("#define " ++ (threeProfiles.get ⟨0, by decide⟩).1 ++ " " ++ toString (0 + 1)
          ++ " /**< @brief " ++ getStr (threeProfiles.get ⟨0, by decide⟩).2 "BRIEF" ++ " */\n") ++ b :=
  c9_master_char_id_numbering.1 threeProfiles 0 (by decide)

/-- C10: whenever the option's custom template for the requested render
mode is present (in particular when non-empty), the emitter returns the
template with `@NAME@`, `@VALUE@` and `@CONST@` substituted — for any
`DECL` whatsoever, supported or not, and without validating the `DECL`
pattern for that mode. -/
theorem c10_custom_template_bypasses_decl (s : String) (d : OptionDef)
    (cid : Option Dict) (fmt : String) (tc : Bool)
    (_hs : s ≠ "")
    (hguard : value_option_set_error d.NAME d cid = false)
    (hclass : classify_testing_changes d.TYPE d.DECL = Except.ok tc) :
    format_ch_def_decl (some s) d cid fmt
      = Except.ok (apply_subst s d.NAME (get_value d.NAME d cid) (is_testing cid) tc) :=
  format_ch_def_decl_some s d cid fmt tc hguard hclass

/-- C10 witness: a garbage `DECL` with a custom template still renders,
tokens substituted. -/
theorem c10_custom_template_bypasses_decl_witness :
    format_ch_def_decl (some "T @NAME@ = @VALUE@;") optBadDecl (some profT) "decl"
      = Except.ok (apply_subst "T @NAME@ = @VALUE@;" optBadDecl.NAME
          (get_value optBadDecl.NAME optBadDecl (some profT)) (is_testing (some profT)) true) :=
  c10_custom_template_bypasses_decl "T @NAME@ = @VALUE@;" optBadDecl (some profT) "decl" true
    (by decide) (by decide) (by decide)

/-- A `CUSTOM` option whose `C` template carries a `TOP_C:` include. -/
def optTopA : OptionDef :=
  { NAME := "O1", DEFAULT := "0", TYPE := "OPTION", DECL := "CUSTOM",
    BRIEF := "b1", C := some "int o1; /* TOP_C: #include \"a.h\" */" }

/-- A second `CUSTOM` option with a different `TOP_C:` include. -/
def optTopB : OptionDef :=
  { NAME := "O2", DEFAULT := "0", TYPE := "OPTION", DECL := "CUSTOM",
    BRIEF := "b2", C := some "int o2; /* TOP_C: #include \"b.h\" */" }

/-- A plain, non-testing profile. -/
def profR : Dict :=
  [("CHAR_ID", FieldVal.str "R"), ("BRIEF", FieldVal.str "r")]

set_option maxRecDepth 40000 in
/-- C8: the embedded generator is a pure function of its inputs (running
it twice on the same tables gives identical output), and any fixed order
for `list(set(found_headers))` is deterministic — but the emitted bytes
do depend on that order: two admissible set orders (the same deduplicated
headers, permuted) produce different per-profile source files for a
configuration whose templates carry two distinct `TOP_C:` includes.
Python's `set` iteration order for strings varies with the interpreter's
hash seed across runs, so byte-identical reruns are not guaranteed. -/
theorem c8_output_depends_on_set_order :
    (∀ (defaults : List OptionDef) (raw : List Dict) (o : List String → List String),
        run_main o defaults raw = run_main o defaults raw)
    ∧ (∀ l : List String, (list_set_rev l).Perm (list_set_default l))
    ∧ write_char_id_source_code [optTopA, optTopB] profR list_set_default
        = Except.ok "#include \"a.h\"\n#include \"b.h\"\nint o1; /* TOP_C: #include \"a.h\" */\nint o2; /* TOP_C: #include \"b.h\" */\n"
    ∧ write_char_id_source_code [optTopA, optTopB] profR list_set_rev
        = Except.ok "#include \"b.h\"\n#include \"a.h\"\nint o1; /* TOP_C: #include \"a.h\" */\nint o2; /* TOP_C: #include \"b.h\" */\n"
    ∧ write_char_id_source_code [optTopA, optTopB] profR list_set_default
        ≠ write_char_id_source_code [optTopA, optTopB] profR list_set_rev := by
  refine ⟨fun _ _ _ => rfl, fun l => List.reverse_perm _, by decide, by decide, by decide⟩

end Claims

end Toggle
